import Mathlib

/-!
Verification development for the API-document generation tool
(`backend/logic.py`).  The Python code is shallowly embedded: pandas cell
values become `PyVal`, DataFrames become lists of association-list rows,
the generated Word document becomes a list of `Block`s, and the effectful
orchestrator becomes a pure function over a `World` record holding the
outcome of every external step (connection, queries, file reads, save).
Formatting details that no claim mentions (cell widths, shading colours,
docx XML) are not modelled.
-/

/-! ### Python string primitives

Python `str` is a sequence of characters; we model the string operations
used by `logic.py` (`strip`, `startswith`, `in`, `split('=', 1)`,
`replace`) at the `List Char` level so that they are kernel-executable
and amenable to induction. -/

/-- Model of Python `str.strip()` on the character list: drop leading and
trailing whitespace. -/
def pyStripChars (l : List Char) : List Char :=
  ((l.dropWhile Char.isWhitespace).reverse.dropWhile Char.isWhitespace).reverse

/-- Model of Python `str.strip()`. -/
def pyStrip (s : String) : String :=
  String.mk (pyStripChars s.data)

/-- Model of Python `c in s` for a single character `c`. -/
def pyContains (s : String) (c : Char) : Bool :=
  s.data.contains c

/-- Model of Python `s.startswith(p)`. -/
def pyStartsWith (s p : String) : Bool :=
  p.data.isPrefixOf s.data

/-- Model of Python `s.split(c, 1)` on a string containing `c`: the part
before the first occurrence of `c` and the part after it. -/
def pySplitFirst (s : String) (c : Char) : String × String :=
  (String.mk (s.data.takeWhile (fun x => x != c)),
   String.mk ((s.data.dropWhile (fun x => x != c)).drop 1))

/-- Fuel-indexed replacement of every non-overlapping occurrence of `pat`
by `rep`, scanning left to right, as Python `str.replace` does.  The fuel
(always instantiated with the length of the scanned list) keeps the
recursion structural so the kernel can evaluate it. -/
def replaceFuel (pat rep : List Char) : Nat → List Char → List Char
  | 0, s => s
  | _ + 1, [] => []
  | fuel + 1, c :: rest =>
    if pat ≠ [] ∧ pat.isPrefixOf (c :: rest) then
      rep ++ replaceFuel pat rep fuel (rest.drop (pat.length - 1))
    else
      c :: replaceFuel pat rep fuel rest

/-- Model of Python `s.replace(pat, rep)` (for the non-empty patterns used
in `logic.py`). -/
def pyReplace (s pat rep : String) : String :=
  String.mk (replaceFuel pat.data rep.data s.data.length s.data)

/-- Digits-to-number accumulator used by the numeral parsers. -/
def digitsToNat (l : List Char) : Nat :=
  l.foldl (fun acc c => 10 * acc + (c.toNat - '0'.toNat)) 0

/-- A rational with denominator 1, built without normalisation so that the
kernel can evaluate it. -/
def natToRat (n : Nat) : ℚ :=
  ⟨Int.ofNat n, 1, one_ne_zero, Nat.coprime_one_right _⟩

/-- Unsigned part of the Python `float(str)` parser: `digits`,
`digits.digits`, `digits.` or `.digits` (exponents, underscores and
inf/nan spellings are not modelled; no claim depends on them). -/
def parseFloatUnsigned (l : List Char) : Option ℚ :=
  let ip := l.takeWhile Char.isDigit
  let rest := l.dropWhile Char.isDigit
  match rest with
  | [] => if ip ≠ [] then some (natToRat (digitsToNat ip)) else none
  | '.' :: fp =>
    if fp.all Char.isDigit ∧ (ip ≠ [] ∨ fp ≠ []) then
      some (natToRat (digitsToNat ip) + natToRat (digitsToNat fp) / natToRat (10 ^ fp.length))
    else none
  | _ => none

/-- Model of Python `float(s)` on a string: surrounding whitespace is
ignored, then an optional sign and a decimal numeral are read; any other
input raises `ValueError`, modelled as `none`. -/
def parseFloat (s : String) : Option ℚ :=
  match pyStripChars s.data with
  | '-' :: rest => (parseFloatUnsigned rest).map Neg.neg
  | '+' :: rest => parseFloatUnsigned rest
  | l => parseFloatUnsigned l

/-- Model of Python `int(s)` on a string: surrounding whitespace is
ignored, then an optional sign and a digit string are read; anything else
(including a decimal point, as in `int("2.0")`) raises `ValueError`,
modelled as `none`. -/
def parseInt (s : String) : Option Int :=
  match pyStripChars s.data with
  | '-' :: rest =>
    if rest ≠ [] ∧ rest.all Char.isDigit then some (-(digitsToNat rest : Int)) else none
  | '+' :: rest =>
    if rest ≠ [] ∧ rest.all Char.isDigit then some ((digitsToNat rest : Int)) else none
  | l =>
    if l ≠ [] ∧ l.all Char.isDigit then some ((digitsToNat l : Int)) else none

/-! ### Cell values

A pandas cell holds either a null (`NaN`/`None`), a number, or a string.
A numeric value carries its rational value together with its Python
`str()` rendering (e.g. `2` with `"2.0"` for the float `2.0`), since the
code uses both views. -/

/-- A pandas cell value. -/
inductive PyVal : Type
  | vNone : PyVal
  | vNum : ℚ → String → PyVal
  | vStr : String → PyVal
deriving DecidableEq

/-- Model of `pd.notna`. -/
def PyVal.notna : PyVal → Bool
  | .vNone => false
  | _ => true

/-- Model of Python `str(value)`.  `str` of a float NaN is `"nan"`; for a
number the carried rendering is used. -/
def PyVal.pystr : PyVal → String
  | .vNone => "nan"
  | .vNum _ s => s
  | .vStr s => s

/-- Model of the pandas `==` comparison used by the row filters: NaN
compares unequal to everything (itself included); numbers compare by
value; strings compare by content; a number never equals a string. -/
def pyEq : PyVal → PyVal → Bool
  | .vNum q _, .vNum p _ => decide (q = p)
  | .vStr s, .vStr t => decide (s = t)
  | _, _ => false

/-- Key equality used by `unique`/`drop_duplicates` and by Python dict
keys: same as `pyEq` except that two nulls count as the same key. -/
def valKeyEq : PyVal → PyVal → Bool
  | .vNone, .vNone => true
  | .vNum q _, .vNum p _ => decide (q = p)
  | .vStr s, .vStr t => decide (s = t)
  | _, _ => false

/-- Lexicographic code-point comparison of character lists, as Python
compares strings. -/
def lexLeChars : List Char → List Char → Bool
  | [], _ => true
  | _ :: _, [] => false
  | a :: as, b :: bs => if a = b then lexLeChars as bs else decide (a < b)

/-- String comparison used by the sort model. -/
def strLe (s t : String) : Bool :=
  lexLeChars s.data t.data

/-- Total comparison on cell values used to model
`sort_values(by='批次說明')`: nulls sort last (pandas default
`na_position='last'`), numbers by value, strings lexicographically.
Mixed number/string comparison would raise in Python; the model fixes an
arbitrary deterministic order for totality. -/
def leVal : PyVal → PyVal → Bool
  | _, .vNone => true
  | .vNone, _ => false
  | .vNum q _, .vNum p _ => decide (q ≤ p)
  | .vNum _ _, .vStr _ => true
  | .vStr _, .vNum _ _ => false
  | .vStr s, .vStr t => strLe s t

/-- Model of Python `float(value)` on a cell value (`ValueError` is
`none`; never applied to a null in the code, which guards with
`pd.notna`). -/
def pyFloat : PyVal → Option ℚ
  | .vNone => none
  | .vNum q _ => some q
  | .vStr s => parseFloat s

/-- Truncation toward zero, as Python `int(float)` does. -/
def ratTrunc (q : ℚ) : Int :=
  q.num.tdiv q.den

/-- Model of Python `int(value)` on a cell value. -/
def pyInt : PyVal → Option Int
  | .vNone => none
  | .vNum q _ => some (ratTrunc q)
  | .vStr s => parseInt s

/-! ### Constants from `logic.py` -/

/-- `DEFAULT_NAN_DISPLAY`: the placeholder sentinel shown for null or
blank values. -/
def DEFAULT_NAN_DISPLAY : String := "NaN"

/-- `DEFAULT_SQL_NOT_FOUND`: shown when a non-blank key has no entry in
the loaded properties map. -/
def DEFAULT_SQL_NOT_FOUND : String := " 查無對應 SQL"

/-- `API_FLOW_PREFIX` constant (`'FI_%'`), the flow-id LIKE pattern. -/
def apiFlowPattern : String := "FI_%"

/-- The paragraph written when no relevant API codes are found
(line 104 of `logic.py`). -/
def noDataMsg : String :=
  "資料庫中找不到與 '" ++ apiFlowPattern ++ "' 相關的 API 資料。"

/-! ### Rows, tables, documents -/

/-- A DataFrame row: column name to cell value. -/
abbrev Row := List (String × PyVal)

/-- Model of `row.get(col, default)` / `row[col]` (missing columns appear
only behind `.get` or column-membership guards in the code paths the
claims exercise). -/
def rowGet (r : Row) (k : String) (d : PyVal) : PyVal :=
  match r.find? (fun p => p.1 == k) with
  | some p => p.2
  | none => d

/-- A document element: a paragraph (with optional heading style) or a
table given by its rows of cell texts (header row included). -/
inductive Block : Type
  | para : String → Option String → Block
  | table : List (List String) → Block
deriving DecidableEq

/-- The tables of a document, as cell-text grids. -/
def docTables (doc : List Block) : List (List (List String)) :=
  doc.filterMap (fun b => match b with
    | .para _ _ => none
    | .table rows => some rows)

/-! ### `load_sql_properties` (lines 30-54) -/

/-- Errors raised by the embedded code. -/
inductive PyErr : Type
  | pyodbcError : String → PyErr
  | fileNotFound : String → PyErr
  | valueError : PyErr
  | otherError : String → PyErr
deriving DecidableEq

/-- One line of the properties-file loop (lines 39-45): a line is
processed only if it contains `'='` and its stripped form does not start
with `'#'`; it is then split on the first `'='`, both parts stripped, and
the pair stored (overwriting any earlier binding of the key). -/
def propsStep (d : String → Option String) (line : String) : String → Option String :=
  if pyContains line '=' && !(pyStartsWith (pyStrip line) "#") then
    fun x =>
      if x = pyStrip (pySplitFirst line '=').1 then some (pyStrip (pySplitFirst line '=').2)
      else d x
  else d

/-- The dictionary built from the lines of the properties file. -/
def parsePropsLines (lines : List String) : String → Option String :=
  lines.foldl propsStep (fun _ => none)

/-- `load_sql_properties`: the file system is modelled as
`Option (List String)` (`none` = path does not exist, in which case the
`FileNotFoundError` is logged and re-raised). -/
def load_sql_properties (file : Option (List String)) :
    Except PyErr (String → Option String) :=
  match file with
  | none => .error (.fileNotFound "SQL properties file not found")
  | some lines => .ok (parsePropsLines lines)

/-! ### Cell renderers -/

/-- Line 269: rendering of the `API順序` cell of the batch hierarchy
table, `str(int(v)) if pd.notna(v) and float(v).is_integer() else
DEFAULT_NAN_DISPLAY`.  `float`/`int` may raise `ValueError` (modelled as
`none`), which is not caught here. -/
def renderHierSeqCell (v : PyVal) : Option String :=
  if v.notna then do
    let q ← pyFloat v
    if q.den = 1 then
      let n ← pyInt v
      pure (toString n)
    else
      pure DEFAULT_NAN_DISPLAY
  else
    pure DEFAULT_NAN_DISPLAY

/-- Lines 270-271: a plain cell renders as `str(v)` when the value is
non-null and non-blank after stripping, else as the sentinel. -/
def renderStrCell (v : PyVal) : String :=
  if v.notna && (pyStrip v.pystr != "") then v.pystr else DEFAULT_NAN_DISPLAY

/-- Lines 391-405: rendering of a sub-section cell.  For the `序` and
`節點階層` columns the value is coerced to an integer string when
`float(value)` succeeds and is whole and `int(value)` succeeds; any
`ValueError` falls back to `str(value)`. -/
def renderSectionCell (header : String) (v : PyVal) : String :=
  if v.notna && (pyStrip v.pystr != "") then
    if header = "序" ∨ header = "節點階層" then
      match pyFloat v with
      | none => v.pystr
      | some q =>
        if q.den = 1 then
          match pyInt v with
          | none => v.pystr
          | some n => toString n
        else v.pystr
    else v.pystr
  else DEFAULT_NAN_DISPLAY

/-- Line 330: decode the escape sequences of a resolved value, in the
source's order: literal `\n` to newline, then `\t` to tab, then `\=` to
`=`. -/
def decodeEscapes (s : String) : String :=
  pyReplace (pyReplace (pyReplace s "\\n" "\n") "\\t" "\t") "\\=" "="

/-- Lines 322-331: the value of the `語法` detail row.  When the
descriptor's `語法設定鍵值` is non-null and non-blank, the key's string
form is looked up in the properties map with `DEFAULT_SQL_NOT_FOUND` as
default and the escapes are decoded; otherwise the value stays at the
`DEFAULT_NAN_DISPLAY` initialisation. -/
def resolveSqlValue (sqlMap : String → Option String) (k : PyVal) : String :=
  if k.notna && (pyStrip k.pystr != "") then
    decodeEscapes ((sqlMap k.pystr).getD DEFAULT_SQL_NOT_FOUND)
  else DEFAULT_NAN_DISPLAY

/-! ### The per-code data index (`api_data`, lines 195-209) -/

/-- `api_data`: code value to category-name to row group. -/
abbrev ApiData := List (PyVal × List (String × List Row))

/-- Set a category entry inside one code's inner dict. -/
def sheetSet (m : List (String × List Row)) (sheet : String) (df : List Row) :
    List (String × List Row) :=
  match m with
  | [] => [(sheet, df)]
  | (s, d) :: rest =>
    if s = sheet then (s, df) :: rest else (s, d) :: sheetSet rest sheet df

/-- `api_data[code][sheet] = df` (creating the outer entry when the code
is new, as lines 200-202 do). -/
def adSet : ApiData → PyVal → String → List Row → ApiData
  | [], code, sheet, df => [(code, [(sheet, df)])]
  | (c, m) :: rest, code, sheet, df =>
    if valKeyEq c code then (c, sheetSet m sheet df) :: rest
    else (c, m) :: adSet rest code sheet df

/-- Lookup in one code's inner dict (`.get(sheet)`). -/
def sheetGet : List (String × List Row) → String → Option (List Row)
  | [], _ => none
  | (s, d) :: rest, sheet => if s = sheet then some d else sheetGet rest sheet

/-- `api_data.get(code, {}).get(sheet)`. -/
def adGet : ApiData → PyVal → String → Option (List Row)
  | [], _, _ => none
  | (c, m) :: rest, code, sheet =>
    if valKeyEq c code then sheetGet m sheet else adGet rest code sheet

/-- First-occurrence deduplication with respect to `valKeyEq`, with a
`seen` accumulator so the recursion is structural. -/
def dedupAux (seen : List PyVal) : List PyVal → List PyVal
  | [] => []
  | v :: rest =>
    if seen.any (fun w => valKeyEq w v) then dedupAux seen rest
    else v :: dedupAux (v :: seen) rest

/-- `series.dropna().unique()`: nulls removed, first occurrences kept. -/
def uniqueVals (l : List PyVal) : List PyVal :=
  dedupAux [] (l.filter (fun v => v.notna))

/-- The `API代碼` cell of a row. -/
def apiCodeOf (r : Row) : PyVal :=
  rowGet r "API代碼" PyVal.vNone

/-- `populate_api_data` (lines 198-202): for every non-null distinct code
of the frame's `API代碼` column, store the rows carrying that code under
the given category name. -/
def populate_api_data (ad : ApiData) (df : List Row) (sheet : String) : ApiData :=
  (uniqueVals (df.map apiCodeOf)).foldl
    (fun acc code => adSet acc code sheet (df.filter (fun r => pyEq (apiCodeOf r) code))) ad

/-- Lines 205-209: the five category frames indexed in source order. -/
def buildApiData (apiListDf outputDf ipDf wsDf paramDf : List Row) : ApiData :=
  populate_api_data
    (populate_api_data
      (populate_api_data
        (populate_api_data
          (populate_api_data [] apiListDf "API清單")
          outputDf "輸出設定")
        ipDf "IP權限設定")
      wsDf "WebService")
    paramDf "參數驗證"

/-! ### Document renderer (lines 219-416) -/

/-- The ten fixed parameter names of the per-API detail table
(lines 313-316). -/
def param_names : List String :=
  ["API代碼", "API簡述", "API說明", "API行為類型", "資料庫連線名稱",
   "執行類型", "語法設定鍵值", "驗證金鑰", "是否編碼", "語法"]

/-- Lines 322-336: the displayed value of one detail-table parameter,
given the (non-empty) descriptor frame. -/
def detailValue (apiDf : List Row) (sqlMap : String → Option String) (param : String) : String :=
  if param = "語法" then
    resolveSqlValue sqlMap (rowGet (apiDf.headD []) "語法設定鍵值" PyVal.vNone)
  else
    match (apiDf.headD []).find? (fun p => p.1 == param) with
    | some p =>
      if p.2.notna && (pyStrip p.2.pystr != "") then p.2.pystr else DEFAULT_NAN_DISPLAY
    | none => DEFAULT_NAN_DISPLAY

/-- Lines 310-354: the data rows of the per-API detail table: ten fixed
parameter rows when the descriptor row-set is present and non-empty, one
all-sentinel placeholder row otherwise. -/
def detailDataRows (apiDfOpt : Option (List Row)) (sqlMap : String → Option String) :
    List (List String) :=
  match apiDfOpt with
  | some apiDf =>
    if apiDf.isEmpty then [List.replicate 3 DEFAULT_NAN_DISPLAY]
    else (List.enumFrom 1 param_names).map
      (fun ip => [toString ip.1, ip.2, detailValue apiDf sqlMap ip.2])
  | none => [List.replicate 3 DEFAULT_NAN_DISPLAY]

/-- The detail-table header (line 294). -/
def detailHeaders : List String := ["序", "參數", "設定值"]

/-- The per-API detail table. -/
def detailTable (apiDfOpt : Option (List Row)) (sqlMap : String → Option String) : Block :=
  Block.table (detailHeaders :: detailDataRows apiDfOpt sqlMap)

/-- Lines 359-364: the four fixed sub-sections with their column
headers. -/
def section_order : List (String × List String) :=
  [("參數驗證", ["序", "屬性名", "預設值", "說明"]),
   ("WebService", ["序", "主機代碼", "主機名稱", "主機IP", "啟用"]),
   ("IP權限設定", ["IP", "說明"]),
   ("輸出設定", ["節點階層", "父階層關聯鍵值", "子階層關聯鍵值", "輸出參數"])]

/-- Lines 384-415: the data rows of one sub-section table: one rendered
row per frame row when the row-set is present and non-empty, one
all-sentinel placeholder row sized to the column count otherwise. -/
def sectionDataRows (headers : List String) (dfOpt : Option (List Row)) :
    List (List String) :=
  match dfOpt with
  | some df =>
    if df.isEmpty then [List.replicate headers.length DEFAULT_NAN_DISPLAY]
    else df.map (fun r =>
      headers.map (fun h => renderSectionCell h (rowGet r h (PyVal.vStr ""))))
  | none => [List.replicate headers.length DEFAULT_NAN_DISPLAY]

/-- One sub-section table. -/
def sectionTable (headers : List String) (dfOpt : Option (List Row)) : Block :=
  Block.table (headers :: sectionDataRows headers dfOpt)

/-- Lines 288-416: the blocks emitted for one API code: heading, detail
table, spacer, then the four sub-sections (heading, table, spacer). -/
def apiBlocks (ad : ApiData) (sqlMap : String → Option String) (apiCode : PyVal) :
    List Block :=
  [Block.para apiCode.pystr (some "Heading 4"),
   detailTable (adGet ad apiCode "API清單") sqlMap,
   Block.para "" none] ++
  section_order.flatMap (fun sh =>
    [Block.para sh.1 (some "Heading 5"),
     sectionTable sh.2 (adGet ad apiCode sh.1),
     Block.para "" none])

/-- The (batch-code, batch-description) cells of a hierarchy row. -/
def batchKeyOf (r : Row) : PyVal × PyVal :=
  (rowGet r "批次代碼" PyVal.vNone, rowGet r "批次說明" PyVal.vNone)

/-- The `API順序` cell of a hierarchy row. -/
def seqOf (r : Row) : PyVal :=
  rowGet r "API順序" PyVal.vNone

/-- Lines 226-229: the hierarchy rows belonging to one batch pair. -/
def groupRows (hier : List Row) (bc bd : PyVal) : List Row :=
  hier.filter (fun r =>
    pyEq (rowGet r "批次代碼" PyVal.vNone) bc &&
    pyEq (rowGet r "批次說明" PyVal.vNone) bd)

/-- First-occurrence deduplication of batch pairs (`drop_duplicates`),
with both components compared as keys. -/
def dedupPairsAux (seen : List (PyVal × PyVal)) :
    List (PyVal × PyVal) → List (PyVal × PyVal)
  | [] => []
  | p :: rest =>
    if seen.any (fun q => valKeyEq q.1 p.1 && valKeyEq q.2 p.2) then dedupPairsAux seen rest
    else p :: dedupPairsAux (p :: seen) rest

/-- `drop_duplicates()` on the two batch columns. -/
def dedupPairs (l : List (PyVal × PyVal)) : List (PyVal × PyVal) :=
  dedupPairsAux [] l

/-- Stable insertion into a sorted list (used to model `sort_values`,
whose only property any claim relies on is that the output is sorted by
the given key; the pandas tie-breaking of its default quicksort is not
observable by the claims). -/
def insertOrdered (le : α → α → Bool) (x : α) : List α → List α
  | [] => [x]
  | y :: ys => if le x y then x :: y :: ys else y :: insertOrdered le x ys

/-- Sorting by repeated ordered insertion. -/
def insertionSortBy (le : α → α → Bool) : List α → List α
  | [] => []
  | x :: xs => insertOrdered le x (insertionSortBy le xs)

/-- Comparison of batch pairs by description. -/
def batchPairLe (p q : PyVal × PyVal) : Bool :=
  leVal p.2 q.2

/-- Line 221: the distinct (batch-code, batch-description) pairs, sorted
by description. -/
def batch_list (hier : List Row) : List (PyVal × PyVal) :=
  insertionSortBy batchPairLe (dedupPairs (hier.map batchKeyOf))

/-- The batch-hierarchy table header (line 238). -/
def hierHeaders : List String := ["順序", "API代碼", "API說明"]

/-- Lines 261-271: one data row of the batch hierarchy table (the
`API順序` cell may raise). -/
def hierDataRow (r : Row) : Option (List String) := do
  let c0 ← renderHierSeqCell (rowGet r "API順序" (PyVal.vStr ""))
  pure [c0,
        renderStrCell (rowGet r "API代碼" (PyVal.vStr "")),
        renderStrCell (rowGet r "API說明" (PyVal.vStr ""))]

/-- Lines 235-273: the batch hierarchy table: one placeholder row when
the batch group is empty, one rendered row per group row otherwise. -/
def hierTable (group : List Row) : Option Block :=
  if group.isEmpty then
    some (Block.table [hierHeaders, List.replicate 3 DEFAULT_NAN_DISPLAY])
  else do
    let rows ← group.mapM hierDataRow
    pure (Block.table (hierHeaders :: rows))

/-- Lines 222-416: the blocks of one batch section: heading, hierarchy
table, spacer; when the group is non-empty, the per-API sections for the
group rows whose code is non-null and non-blank (blank codes are skipped,
line 284). -/
def batchSection (ad : ApiData) (sqlMap : String → Option String) (hier : List Row)
    (bc bd : PyVal) : Option (List Block) := do
  let group := groupRows hier bc bd
  let tbl ← hierTable group
  let rest :=
    if group.isEmpty then []
    else group.flatMap (fun r =>
      let code := rowGet r "API代碼" PyVal.vNone
      if code.notna = false ∨ pyStrip code.pystr = "" then []
      else apiBlocks ad sqlMap code)
  pure ([Block.para (bc.pystr ++ " (" ++ bd.pystr ++ ")") (some "Heading 2"),
         tbl, Block.para "" none] ++ rest)

/-- Lines 216-416: the full rendering pass: the template followed by one
section per sorted distinct batch pair. -/
def renderDoc (tmpl : List Block) (hier : List Row) (ad : ApiData)
    (sqlMap : String → Option String) : Option (List Block) := do
  let sections ← (batch_list hier).mapM (fun p => batchSection ad sqlMap hier p.1 p.2)
  pure (tmpl ++ sections.flatten)

/-! ### Orchestrator (`generate_api_doc`, lines 56-438) -/

/-- The outcome of every external step of one run: the connection
attempt, the six query results, the properties file content (`none` =
missing path), the template load, and the save. -/
structure World : Type where
  connectRes : Except PyErr Unit
  relevantRes : Except PyErr (List Row)
  hierRes : Except PyErr (List Row)
  apiListRes : Except PyErr (List Row)
  outputRes : Except PyErr (List Row)
  ipRes : Except PyErr (List Row)
  wsRes : Except PyErr (List Row)
  paramRes : Except PyErr (List Row)
  propsFile : Option (List String)
  templateDoc : Except PyErr (List Block)
  saveRes : Except PyErr Unit

/-- Result of a run: the produced document (or the propagated error),
plus whether a connection was opened and whether it was released. -/
structure GenOutcome : Type where
  result : Except PyErr (List Block)
  connOpened : Bool
  connClosed : Bool

/-- Line 98: the relevant code list,
`df['CALL_CODE_ID'].dropna().unique()`. -/
def relevantCodesOf (rdf : List Row) : List PyVal :=
  uniqueVals (rdf.map (fun r => rowGet r "CALL_CODE_ID" PyVal.vNone))

/-- The `try` body of `generate_api_doc` after a successful connection:
each step either succeeds or raises, and every raise propagates unchanged
(the `except` clauses only log and re-raise). -/
def genBody (w : World) : Except PyErr (List Block) :=
  match w.relevantRes with
  | .error e => .error e
  | .ok rdf =>
    if (relevantCodesOf rdf).isEmpty then
      match w.templateDoc with
      | .error e => .error e
      | .ok tmpl =>
        match w.saveRes with
        | .error e => .error e
        | .ok _ => .ok (tmpl ++ [Block.para noDataMsg none])
    else
      match w.hierRes with
      | .error e => .error e
      | .ok hier =>
        match w.apiListRes with
        | .error e => .error e
        | .ok apiListDf =>
          match w.outputRes with
          | .error e => .error e
          | .ok outputDf =>
            match w.ipRes with
            | .error e => .error e
            | .ok ipDf =>
              match w.wsRes with
              | .error e => .error e
              | .ok wsDf =>
                match w.paramRes with
                | .error e => .error e
                | .ok paramDf =>
                  match load_sql_properties w.propsFile with
                  | .error e => .error e
                  | .ok sqlMap =>
                    match w.templateDoc with
                    | .error e => .error e
                    | .ok tmpl =>
                      match renderDoc tmpl hier
                          (buildApiData apiListDf outputDf ipDf wsDf paramDf) sqlMap with
                      | none => .error .valueError
                      | some doc =>
                        match w.saveRes with
                        | .error e => .error e
                        | .ok _ => .ok doc

/-- `generate_api_doc`: if the connection attempt fails, its error
propagates and no connection existed; otherwise the body runs and the
`finally` block (lines 434-438) closes the connection on every exit
path. -/
def generate_api_doc (w : World) : GenOutcome :=
  match w.connectRes with
  | .error e => ⟨.error e, false, false⟩
  | .ok _ => ⟨genBody w, true, true⟩

/-! ### Helper lemmas about the string primitives and the loader -/

/-- A string whose stripped character list is empty consists of
whitespace only. -/
theorem pyStripChars_nil_all_ws (l : List Char) (h : pyStripChars l = []) :
    ∀ c ∈ l, c.isWhitespace = true := by
  unfold pyStripChars at h
  rw [List.reverse_eq_nil_iff] at h
  have h3 : ∀ c ∈ l.dropWhile Char.isWhitespace, c.isWhitespace = true := by
    intro c hc
    exact List.dropWhile_eq_nil_iff.mp h c (List.mem_reverse.mpr hc)
  intro c hc
  rw [← List.takeWhile_append_dropWhile (p := Char.isWhitespace) (l := l)] at hc
  rcases List.mem_append.mp hc with h4 | h4
  · exact List.mem_takeWhile_imp h4
  · exact h3 c h4

/-- A line that is blank after stripping contains no `'='`. -/
theorem pyContains_eq_false_of_strip_empty (line : String) (h : pyStrip line = "") :
    pyContains line '=' = false := by
  have hl : pyStripChars line.data = [] := congrArg String.data h
  cases hc : pyContains line '=' with
  | false => rfl
  | true =>
    have hmem : '=' ∈ line.data := by
      unfold pyContains at hc
      simpa using hc
    have := pyStripChars_nil_all_ws line.data hl '=' hmem
    exact absurd this (by decide)

/-- Folding the remaining lines over the dictionary leaves a key
untouched when none of them rebinds it. -/
theorem propsFold_preserve (k : String) :
    ∀ (rest : List String) (d : String → Option String),
      (∀ l ∈ rest, pyContains l '=' = true → pyStartsWith (pyStrip l) "#" = false →
        pyStrip (pySplitFirst l '=').1 ≠ k) →
      List.foldl propsStep d rest k = d k := by
  intro rest
  induction rest with
  | nil => intro d _; rfl
  | cons l rest ih =>
    intro d hall
    rw [List.foldl_cons, ih _ (fun x hx h1 h2 => hall x (List.mem_cons_of_mem _ hx) h1 h2)]
    unfold propsStep
    by_cases h1 : pyContains l '=' = true
    · by_cases h2 : pyStartsWith (pyStrip l) "#" = true
      · simp [h1, h2]
      · have h2' : pyStartsWith (pyStrip l) "#" = false := by
          revert h2; cases pyStartsWith (pyStrip l) "#" <;> simp
        have hk := hall l (List.mem_cons_self _ _) h1 h2'
        simp only [h1, h2', Bool.not_false, Bool.and_self, if_true]
        rw [if_neg (fun hkk => hk hkk.symm)]
    · have h1' : pyContains l '=' = false := by
        revert h1; cases pyContains l '=' <;> simp
      simp [h1']

/-- Claim C6: the properties loader ignores a line that is blank after
trimming or whose trimmed form begins with `'#'`; otherwise (when the
line contains `'='`) it splits the line on the first `'='` into key and
value, trims both, and stores the pair so that the last occurrence of a
duplicated key wins in the returned map; it fails with a file-not-found
error when the path does not exist. -/
theorem claim_C6 (d : String → Option String) (line : String) (pre post : List String)
    (k v : String) :
    (pyStrip line = "" → propsStep d line = d) ∧
    (pyStartsWith (pyStrip line) "#" = true → propsStep d line = d) ∧
    (pyContains line '=' = true → pyStartsWith (pyStrip line) "#" = false →
      propsStep d line = fun x =>
        if x = pyStrip (pySplitFirst line '=').1 then some (pyStrip (pySplitFirst line '=').2)
        else d x) ∧
    (pyContains line '=' = true → pyStartsWith (pyStrip line) "#" = false →
      pyStrip (pySplitFirst line '=').1 = k → pyStrip (pySplitFirst line '=').2 = v →
      (∀ l ∈ post, pyContains l '=' = true → pyStartsWith (pyStrip l) "#" = false →
        pyStrip (pySplitFirst l '=').1 ≠ k) →
      parsePropsLines (pre ++ line :: post) k = some v) ∧
    load_sql_properties none = .error (PyErr.fileNotFound "SQL properties file not found") := by
  refine ⟨fun hblank => ?_, fun hcomment => ?_, fun h1 h2 => ?_, fun h1 h2 hk hv hpost => ?_, rfl⟩
  · simp [propsStep, pyContains_eq_false_of_strip_empty line hblank]
  · simp [propsStep, hcomment]
  · simp [propsStep, h1, h2]
  · unfold parsePropsLines
    rw [List.foldl_append, List.foldl_cons, propsFold_preserve k post _ hpost]
    unfold propsStep
    simp only [h1, h2, Bool.not_false, Bool.and_self, if_true]
    rw [if_pos hk.symm, hv]

/-- Witness for C6 at a concrete file: the later binding of `a` wins,
comment and malformed lines in between are ignored, and a missing file
yields the not-found error. -/
theorem claim_C6_witness :
    parsePropsLines ["a=old", "a = b", "# a=x", "nope"] "a" = some "b" ∧
    load_sql_properties none = .error (PyErr.fileNotFound "SQL properties file not found") := by
  have h := claim_C6 (fun _ => none) "a = b" ["a=old"] ["# a=x", "nope"] "a" "b"
  exact ⟨h.2.2.2.1 (by decide) (by decide) (by decide) (by decide) (by decide), h.2.2.2.2⟩

/-- Claim C10: a non-comment line without `'='` is silently ignored by
the loader (neither stored nor an error: the loader always succeeds on an
existing file), and a line whose trimmed form begins with `'#'` is
ignored even when it contains `'='`. -/
theorem claim_C10 (d : String → Option String) (line : String) (lines : List String) :
    (pyContains line '=' = false → propsStep d line = d) ∧
    (pyStartsWith (pyStrip line) "#" = true → propsStep d line = d) ∧
    load_sql_properties (some lines) = .ok (parsePropsLines lines) := by
  refine ⟨fun h => ?_, fun h => ?_, rfl⟩
  · simp [propsStep, h]
  · simp [propsStep, h]

/-- Witness for C10: a concrete `'='`-free line and a concrete comment
line containing `'='` both leave the dictionary unchanged. -/
theorem claim_C10_witness :
    propsStep (fun _ => none) "noequals" = (fun _ => none) ∧
    propsStep (fun _ => none) "  # k=v" = (fun _ => none) := by
  exact ⟨(claim_C10 (fun _ => none) "noequals" []).1 (by decide),
         (claim_C10 (fun _ => none) "  # k=v" []).2.1 (by decide)⟩

/-- Claim C2 as amended: for a non-null, non-blank `語法設定鍵值` the
rendered `語法` value is the map lookup (defaulted to the
`DEFAULT_SQL_NOT_FOUND` sentinel) with escapes decoded — in particular a
mapped key renders as its decoded value and an unresolved non-blank key
renders as the "not found" sentinel — while a null or blank key renders
as the `DEFAULT_NAN_DISPLAY` placeholder, not the "not found" sentinel. -/
theorem claim_C2_amended (m : String → Option String) (k : PyVal) (v : String) :
    (k.notna = true → pyStrip k.pystr ≠ "" → m k.pystr = some v →
      resolveSqlValue m k = decodeEscapes v) ∧
    (k.notna = true → pyStrip k.pystr ≠ "" → m k.pystr = none →
      resolveSqlValue m k = DEFAULT_SQL_NOT_FOUND) ∧
    (k.notna = false → resolveSqlValue m k = DEFAULT_NAN_DISPLAY) ∧
    (pyStrip k.pystr = "" → resolveSqlValue m k = DEFAULT_NAN_DISPLAY) ∧
    decodeEscapes "A\\nB" = "A\nB" := by
  refine ⟨fun h1 h2 h3 => ?_, fun h1 h2 h3 => ?_, fun h1 => ?_, fun h1 => ?_, by decide⟩
  · simp [resolveSqlValue, h1, h2, h3]
  · have : decodeEscapes DEFAULT_SQL_NOT_FOUND = DEFAULT_SQL_NOT_FOUND := by decide
    simp [resolveSqlValue, h1, h2, h3, this]
  · simp [resolveSqlValue, h1]
  · simp [resolveSqlValue, h1]

/-- Counterexample to C2 as stated: a blank key renders as the
`DEFAULT_NAN_DISPLAY` placeholder `"NaN"`, not as the fixed "not found"
sentinel `" 查無對應 SQL"`. -/
theorem claim_C2_counterexample :
    resolveSqlValue (fun _ => some "S") (PyVal.vStr "") = DEFAULT_NAN_DISPLAY ∧
    DEFAULT_NAN_DISPLAY ≠ DEFAULT_SQL_NOT_FOUND := by
  exact ⟨by decide, by decide⟩

/-- Witness for the amended C2 at concrete inputs: a mapped value with a
literal backslash-n renders with an actual newline, and an unresolved
non-blank key renders as the "not found" sentinel. -/
theorem claim_C2_witness :
    resolveSqlValue (fun x => if x = "K" then some "A\\nB" else none) (PyVal.vStr "K")
      = "A\nB" ∧
    resolveSqlValue (fun _ => none) (PyVal.vStr "K") = DEFAULT_SQL_NOT_FOUND := by
  constructor
  · have h := (claim_C2_amended (fun x => if x = "K" then some "A\\nB" else none)
      (PyVal.vStr "K") "A\\nB").1 (by decide) (by decide) (by decide)
    rw [h]
    decide
  · exact (claim_C2_amended (fun _ => none) (PyVal.vStr "K") "").2.1
      (by decide) (by decide) (by decide)

/-- Claim C1 as amended: for the `序`/`節點階層` sub-section columns a
non-null, non-blank cell renders as the integer string of its value when
the value is numeric and whole, as its literal string form when it is
numeric and non-whole, and — for string cells — as the converted integer
form exactly when both `float` and `int` conversions succeed on a whole
value, falling back to the literal string otherwise; a null or blank cell
renders as the sentinel.  For the `API順序` column of the batch hierarchy
table a whole numeric value renders as its integer string and a null as
the sentinel, but a non-whole numeric value renders as the sentinel (not
its literal form) and a string `float` cannot parse raises an uncaught
error instead of rendering. -/
theorem claim_C1_amended (h : String) (hh : h = "序" ∨ h = "節點階層")
    (q q' : ℚ) (n : Int) (r s : String) (v : PyVal) :
    (q.den = 1 → pyStrip r ≠ "" → renderSectionCell h (PyVal.vNum q r) = toString q.num) ∧
    (q.den ≠ 1 → pyStrip r ≠ "" → renderSectionCell h (PyVal.vNum q r) = r) ∧
    (parseFloat s = none → pyStrip s ≠ "" → renderSectionCell h (PyVal.vStr s) = s) ∧
    (parseFloat s = some q' → q'.den ≠ 1 → pyStrip s ≠ "" →
      renderSectionCell h (PyVal.vStr s) = s) ∧
    (parseFloat s = some q' → q'.den = 1 → parseInt s = some n → pyStrip s ≠ "" →
      renderSectionCell h (PyVal.vStr s) = toString n) ∧
    (parseFloat s = some q' → q'.den = 1 → parseInt s = none → pyStrip s ≠ "" →
      renderSectionCell h (PyVal.vStr s) = s) ∧
    (renderSectionCell h PyVal.vNone = DEFAULT_NAN_DISPLAY) ∧
    (v.notna = true → pyStrip v.pystr = "" → renderSectionCell h v = DEFAULT_NAN_DISPLAY) ∧
    (q.den = 1 → renderHierSeqCell (PyVal.vNum q r) = some (toString q.num)) ∧
    (q.den ≠ 1 → renderHierSeqCell (PyVal.vNum q r) = some DEFAULT_NAN_DISPLAY) ∧
    (renderHierSeqCell PyVal.vNone = some DEFAULT_NAN_DISPLAY) ∧
    (parseFloat s = none → renderHierSeqCell (PyVal.vStr s) = none) := by
  have hcond : (h = "序" ∨ h = "節點階層") = True := eq_true hh
  refine ⟨fun hden hr => ?_, fun hden hr => ?_, fun hpf hs => ?_, fun hpf hden hs => ?_,
    fun hpf hden hpi hs => ?_, fun hpf hden hpi hs => ?_, ?_, fun hnn hblank => ?_,
    fun hden => ?_, fun hden => ?_, ?_, fun hpf => ?_⟩
  · simp [renderSectionCell, PyVal.notna, PyVal.pystr, bne_iff_ne.mpr hr, hcond,
      pyFloat, pyInt, hden, ratTrunc, Int.tdiv_one]
  · simp [renderSectionCell, PyVal.notna, PyVal.pystr, bne_iff_ne.mpr hr, hcond,
      pyFloat, pyInt, hden]
  · simp [renderSectionCell, PyVal.notna, PyVal.pystr, bne_iff_ne.mpr hs, hcond,
      pyFloat, hpf]
  · simp [renderSectionCell, PyVal.notna, PyVal.pystr, bne_iff_ne.mpr hs, hcond,
      pyFloat, hpf, hden]
  · simp [renderSectionCell, PyVal.notna, PyVal.pystr, bne_iff_ne.mpr hs, hcond,
      pyFloat, hpf, hden, pyInt, hpi]
  · simp [renderSectionCell, PyVal.notna, PyVal.pystr, bne_iff_ne.mpr hs, hcond,
      pyFloat, hpf, hden, pyInt, hpi]
  · simp [renderSectionCell, PyVal.notna]
  · simp [renderSectionCell, hnn, hblank]
  · simp [renderHierSeqCell, PyVal.notna, pyFloat, pyInt, hden, ratTrunc, Int.tdiv_one]
  · simp [renderHierSeqCell, PyVal.notna, pyFloat, pyInt, hden]
  · simp [renderHierSeqCell, PyVal.notna]
  · simp [renderHierSeqCell, PyVal.notna, pyFloat, hpf]

/-- Counterexample to C1 as stated: in the `API順序` column a non-whole
numeric value (here 5/2, str form `"2.5"`) renders as the sentinel
`"NaN"`, not as its literal string form `"2.5"`. -/
theorem claim_C1_counterexample :
    renderHierSeqCell (PyVal.vNum (Rat.mk' 5 2 (by norm_num) (by norm_num)) "2.5")
      = some DEFAULT_NAN_DISPLAY ∧
    some DEFAULT_NAN_DISPLAY ≠ some "2.5" := by
  exact ⟨by decide, by decide⟩

/-- Witness for the amended C1 at concrete inputs: a whole number renders
as its integer form, an unparseable string renders literally in the
sub-section columns, and raises (no cell) in the hierarchy column. -/
theorem claim_C1_witness :
    renderSectionCell "序" (PyVal.vNum (natToRat 7) "7.0") = toString (natToRat 7).num ∧
    renderSectionCell "節點階層" (PyVal.vStr "abc") = "abc" ∧
    renderHierSeqCell (PyVal.vStr "abc") = none := by
  refine ⟨?_, ?_, ?_⟩
  · exact (claim_C1_amended "序" (Or.inl rfl) (natToRat 7) (natToRat 7) 0 "7.0" "x"
      PyVal.vNone).1 rfl (by decide)
  · exact (claim_C1_amended "節點階層" (Or.inr rfl) (natToRat 7) (natToRat 7) 0 "7.0" "abc"
      PyVal.vNone).2.2.1 (by decide) (by decide)
  · exact (claim_C1_amended "序" (Or.inl rfl) (natToRat 7) (natToRat 7) 0 "7.0" "abc"
      PyVal.vNone).2.2.2.2.2.2.2.2.2.2.2 (by decide)

/-- Claim C3 as amended: for the four sub-section tables a present
non-empty row-set yields exactly one emitted data row per row-set row and
an absent or empty row-set yields exactly one all-sentinel placeholder
row sized to the column count (every emitted row has the column count);
the API descriptor detail table emits the ten fixed parameter rows when
the descriptor row-set is present and non-empty (not the row-set's row
count) and one all-sentinel placeholder row of its three columns when it
is absent or empty. -/
theorem claim_C3_amended (headers : List String) (dfOpt : Option (List Row))
    (df apiDf : List Row) (m : String → Option String) :
    (dfOpt = some df → df ≠ [] → (sectionDataRows headers dfOpt).length = df.length) ∧
    (dfOpt = none ∨ dfOpt = some [] →
      sectionDataRows headers dfOpt = [List.replicate headers.length DEFAULT_NAN_DISPLAY]) ∧
    (∀ row ∈ sectionDataRows headers dfOpt, row.length = headers.length) ∧
    (apiDf ≠ [] → (detailDataRows (some apiDf) m).length = param_names.length) ∧
    detailDataRows none m = [List.replicate detailHeaders.length DEFAULT_NAN_DISPLAY] ∧
    detailDataRows (some []) m = [List.replicate detailHeaders.length DEFAULT_NAN_DISPLAY] := by
  refine ⟨fun h1 h2 => ?_, fun h1 => ?_, fun row hrow => ?_, fun h1 => ?_, rfl, rfl⟩
  · subst h1
    have he : df.isEmpty = false := by
      cases df with
      | nil => exact absurd rfl h2
      | cons a l => rfl
    simp [sectionDataRows, he]
  · rcases h1 with h1 | h1 <;> subst h1 <;> simp [sectionDataRows]
  · rcases dfOpt with _ | df'
    · simp [sectionDataRows] at hrow
      simp [hrow]
    · rcases df' with _ | ⟨a, l⟩
      · simp [sectionDataRows] at hrow
        simp [hrow]
      · simp only [sectionDataRows, List.isEmpty_cons, if_false, Bool.false_eq_true,
          List.mem_map] at hrow
        obtain ⟨r, _, hr⟩ := hrow
        subst hr
        simp
  · have he : apiDf.isEmpty = false := by
      cases apiDf with
      | nil => exact absurd rfl h1
      | cons a l => rfl
    simp [detailDataRows, he, List.enumFrom_length]

/-- Counterexample to C3 as stated: a descriptor row-set with exactly one
row yields ten emitted detail-table data rows, not one. -/
theorem claim_C3_counterexample :
    (detailDataRows (some [[("API代碼", PyVal.vStr "X")]]) (fun _ => none)).length = 10 ∧
    ([[("API代碼", PyVal.vStr "X")]] : List Row).length = 1 ∧ (10 : Nat) ≠ 1 := by
  exact ⟨rfl, rfl, by decide⟩

/-- Witness for the amended C3 at concrete inputs: a one-row sub-section
row-set emits one row, and an absent sub-section row-set emits the
placeholder row sized to the two columns. -/
theorem claim_C3_witness :
    (sectionDataRows ["IP", "說明"]
      (some [[("IP", PyVal.vStr "1.2.3.4"), ("說明", PyVal.vStr "ok")]])).length = 1 ∧
    sectionDataRows ["IP", "說明"] none
      = [List.replicate (["IP", "說明"] : List String).length DEFAULT_NAN_DISPLAY] := by
  constructor
  · exact (claim_C3_amended ["IP", "說明"]
      (some [[("IP", PyVal.vStr "1.2.3.4"), ("說明", PyVal.vStr "ok")]])
      [[("IP", PyVal.vStr "1.2.3.4"), ("說明", PyVal.vStr "ok")]] [] (fun _ => none)).1
      rfl (by decide)
  · exact (claim_C3_amended ["IP", "說明"] none [] [] (fun _ => none)).2.1 (Or.inl rfl)

/-- Claim C4: when the relevant-code result set yields no codes, the run
appends exactly one paragraph with the fixed "no data" message to the
template, saves, and returns — no batch loop runs, so the output contains
no tables beyond the template's, and the connection is still released. -/
theorem claim_C4 (w : World) (rdf : List Row) (tmpl : List Block)
    (hc : w.connectRes = .ok ()) (hr : w.relevantRes = .ok rdf)
    (hempty : relevantCodesOf rdf = []) (ht : w.templateDoc = .ok tmpl)
    (hs : w.saveRes = .ok ()) :
    (generate_api_doc w).result = .ok (tmpl ++ [Block.para noDataMsg none]) ∧
    docTables (tmpl ++ [Block.para noDataMsg none]) = docTables tmpl ∧
    (generate_api_doc w).connClosed = true := by
  refine ⟨?_, ?_, ?_⟩
  · simp [generate_api_doc, hc, genBody, hr, hempty, ht, hs]
  · simp [docTables, List.filterMap_append]
  · simp [generate_api_doc, hc]

/-- Witness for C4: a concrete world whose relevant-code query returns an
empty frame produces exactly the template plus the one message
paragraph. -/
theorem claim_C4_witness :
    (generate_api_doc
      ⟨.ok (), .ok [], .ok [], .ok [], .ok [], .ok [], .ok [], .ok [], some [],
        .ok [Block.para "t" none], .ok ()⟩).result
      = .ok ([Block.para "t" none] ++ [Block.para noDataMsg none]) ∧
    docTables ([Block.para "t" none] ++ [Block.para noDataMsg none])
      = docTables [Block.para "t" none] := by
  have h := claim_C4
    ⟨.ok (), .ok [], .ok [], .ok [], .ok [], .ok [], .ok [], .ok [], some [],
      .ok [Block.para "t" none], .ok ()⟩
    [] [Block.para "t" none] rfl rfl rfl rfl rfl
  exact ⟨h.1, h.2.1⟩

/-- Claim C7: whenever a connection was opened it is released on every
exit path, and every lower-layer failure — connection, any of the six
queries, the missing properties file, the template load, the save —
propagates unchanged as the run's result instead of being recovered. -/
theorem claim_C7 (w : World) (e : PyErr) (rdf hier al od ip ws pv : List Row)
    (lines : List String) (tmpl docOut : List Block) :
    ((generate_api_doc w).connOpened = true → (generate_api_doc w).connClosed = true) ∧
    (w.connectRes = .error e → generate_api_doc w = ⟨.error e, false, false⟩) ∧
    (w.connectRes = .ok () → generate_api_doc w = ⟨genBody w, true, true⟩) ∧
    (w.relevantRes = .error e → genBody w = .error e) ∧
    (w.relevantRes = .ok rdf → (relevantCodesOf rdf).isEmpty = true →
      w.templateDoc = .error e → genBody w = .error e) ∧
    (w.relevantRes = .ok rdf → (relevantCodesOf rdf).isEmpty = true →
      w.templateDoc = .ok tmpl → w.saveRes = .error e → genBody w = .error e) ∧
    (w.relevantRes = .ok rdf → (relevantCodesOf rdf).isEmpty = false →
      w.hierRes = .error e → genBody w = .error e) ∧
    (w.relevantRes = .ok rdf → (relevantCodesOf rdf).isEmpty = false →
      w.hierRes = .ok hier → w.apiListRes = .error e → genBody w = .error e) ∧
    (w.relevantRes = .ok rdf → (relevantCodesOf rdf).isEmpty = false →
      w.hierRes = .ok hier → w.apiListRes = .ok al → w.outputRes = .error e →
      genBody w = .error e) ∧
    (w.relevantRes = .ok rdf → (relevantCodesOf rdf).isEmpty = false →
      w.hierRes = .ok hier → w.apiListRes = .ok al → w.outputRes = .ok od →
      w.ipRes = .error e → genBody w = .error e) ∧
    (w.relevantRes = .ok rdf → (relevantCodesOf rdf).isEmpty = false →
      w.hierRes = .ok hier → w.apiListRes = .ok al → w.outputRes = .ok od →
      w.ipRes = .ok ip → w.wsRes = .error e → genBody w = .error e) ∧
    (w.relevantRes = .ok rdf → (relevantCodesOf rdf).isEmpty = false →
      w.hierRes = .ok hier → w.apiListRes = .ok al → w.outputRes = .ok od →
      w.ipRes = .ok ip → w.wsRes = .ok ws → w.paramRes = .error e →
      genBody w = .error e) ∧
    (w.relevantRes = .ok rdf → (relevantCodesOf rdf).isEmpty = false →
      w.hierRes = .ok hier → w.apiListRes = .ok al → w.outputRes = .ok od →
      w.ipRes = .ok ip → w.wsRes = .ok ws → w.paramRes = .ok pv →
      w.propsFile = none →
      genBody w = .error (PyErr.fileNotFound "SQL properties file not found")) ∧
    (w.relevantRes = .ok rdf → (relevantCodesOf rdf).isEmpty = false →
      w.hierRes = .ok hier → w.apiListRes = .ok al → w.outputRes = .ok od →
      w.ipRes = .ok ip → w.wsRes = .ok ws → w.paramRes = .ok pv →
      w.propsFile = some lines → w.templateDoc = .error e → genBody w = .error e) ∧
    (w.relevantRes = .ok rdf → (relevantCodesOf rdf).isEmpty = false →
      w.hierRes = .ok hier → w.apiListRes = .ok al → w.outputRes = .ok od →
      w.ipRes = .ok ip → w.wsRes = .ok ws → w.paramRes = .ok pv →
      w.propsFile = some lines → w.templateDoc = .ok tmpl →
      renderDoc tmpl hier (buildApiData al od ip ws pv) (parsePropsLines lines) = some docOut →
      w.saveRes = .error e → genBody w = .error e) := by
  refine ⟨?_, fun h => ?_, fun h => ?_, fun h1 => ?_, fun h1 h2 h3 => ?_,
    fun h1 h2 h3 h4 => ?_, fun h1 h2 h3 => ?_, fun h1 h2 h3 h4 => ?_,
    fun h1 h2 h3 h4 h5 => ?_, fun h1 h2 h3 h4 h5 h6 => ?_,
    fun h1 h2 h3 h4 h5 h6 h7 => ?_, fun h1 h2 h3 h4 h5 h6 h7 h8 => ?_,
    fun h1 h2 h3 h4 h5 h6 h7 h8 h9 => ?_, fun h1 h2 h3 h4 h5 h6 h7 h8 h9 h10 => ?_,
    fun h1 h2 h3 h4 h5 h6 h7 h8 h9 h10 h11 h12 => ?_⟩
  · cases hc : w.connectRes <;> simp [generate_api_doc, hc]
  · simp [generate_api_doc, h]
  · simp [generate_api_doc, h]
  · simp [genBody, h1]
  · simp [genBody, h1, h2, h3]
  · simp [genBody, h1, h2, h3, h4]
  · simp [genBody, h1, h2, h3]
  · simp [genBody, h1, h2, h3, h4]
  · simp [genBody, h1, h2, h3, h4, h5]
  · simp [genBody, h1, h2, h3, h4, h5, h6]
  · simp [genBody, h1, h2, h3, h4, h5, h6, h7]
  · simp [genBody, h1, h2, h3, h4, h5, h6, h7, h8]
  · simp [genBody, h1, h2, h3, h4, h5, h6, h7, h8, h9, load_sql_properties]
  · simp [genBody, h1, h2, h3, h4, h5, h6, h7, h8, h9, h10, load_sql_properties]
  · simp [genBody, h1, h2, h3, h4, h5, h6, h7, h8, h9, h10, h11, h12,
      load_sql_properties]

/-- Witness for C7 at concrete worlds: a failed connection propagates its
error with no connection opened, and a failed hierarchy query after a
successful connection propagates its error with the connection
released. -/
theorem claim_C7_witness :
    generate_api_doc
      ⟨.error (PyErr.pyodbcError "down"), .ok [], .ok [], .ok [], .ok [], .ok [], .ok [],
        .ok [], some [], .ok [], .ok ()⟩
      = ⟨.error (PyErr.pyodbcError "down"), false, false⟩ ∧
    generate_api_doc
      ⟨.ok (), .ok [[("CALL_CODE_ID", PyVal.vStr "X")]], .error (PyErr.pyodbcError "q"),
        .ok [], .ok [], .ok [], .ok [], .ok [], some [], .ok [], .ok ()⟩
      = ⟨.error (PyErr.pyodbcError "q"), true, true⟩ := by
  constructor
  · exact (claim_C7
      ⟨.error (PyErr.pyodbcError "down"), .ok [], .ok [], .ok [], .ok [], .ok [], .ok [],
        .ok [], some [], .ok [], .ok ()⟩
      (PyErr.pyodbcError "down") [] [] [] [] [] [] [] [] [] []).2.1 rfl
  · have h := claim_C7
      ⟨.ok (), .ok [[("CALL_CODE_ID", PyVal.vStr "X")]], .error (PyErr.pyodbcError "q"),
        .ok [], .ok [], .ok [], .ok [], .ok [], some [], .ok [], .ok ()⟩
      (PyErr.pyodbcError "q") [[("CALL_CODE_ID", PyVal.vStr "X")]] [] [] [] [] [] [] [] [] []
    rw [h.2.2.1 rfl, h.2.2.2.2.2.2.1 rfl (by decide) rfl]

/-- Claim C8: the rendering pipeline is deterministic — two runs on equal
inputs (template, ordering rows, hierarchy index, properties map) produce
the same document and in particular the same table cell texts. -/
theorem claim_C8 (t1 t2 : List Block) (h1 h2 : List Row) (a1 a2 : ApiData)
    (m1 m2 : String → Option String) (ht : t1 = t2) (hh : h1 = h2) (ha : a1 = a2)
    (hm : m1 = m2) :
    renderDoc t1 h1 a1 m1 = renderDoc t2 h2 a2 m2 ∧
    (renderDoc t1 h1 a1 m1).map docTables = (renderDoc t2 h2 a2 m2).map docTables := by
  subst ht; subst hh; subst ha; subst hm
  exact ⟨rfl, rfl⟩

/-- Witness for C8 at a concrete input run twice. -/
theorem claim_C8_witness :
    renderDoc [] [[("批次代碼", PyVal.vStr "B"), ("批次說明", PyVal.vStr "d")]] []
        (fun _ => none)
      = renderDoc [] [[("批次代碼", PyVal.vStr "B"), ("批次說明", PyVal.vStr "d")]] []
        (fun _ => none) := by
  exact (claim_C8 [] [] [[("批次代碼", PyVal.vStr "B"), ("批次說明", PyVal.vStr "d")]]
    [[("批次代碼", PyVal.vStr "B"), ("批次說明", PyVal.vStr "d")]] [] [] (fun _ => none)
    (fun _ => none) rfl rfl rfl rfl).1

/-! ### Helper lemmas for the hierarchy index -/

/-- Deduplication only keeps elements of the input. -/
theorem mem_of_mem_dedupAux :
    ∀ (l : List PyVal) (seen : List PyVal) (x : PyVal), x ∈ dedupAux seen l → x ∈ l := by
  intro l
  induction l with
  | nil => intro seen x hx; simp [dedupAux] at hx
  | cons v rest ih =>
    intro seen x hx
    unfold dedupAux at hx
    by_cases hseen : seen.any (fun w => valKeyEq w v) = true
    · rw [if_pos hseen] at hx
      exact List.mem_cons_of_mem _ (ih seen x hx)
    · rw [if_neg hseen] at hx
      rcases List.mem_cons.mp hx with h | h
      · exact h ▸ List.mem_cons_self _ _
      · exact List.mem_cons_of_mem _ (ih (v :: seen) x h)

/-- A member of `dropna().unique()` occurs in the column and is
non-null. -/
theorem uniqueVals_mem (x : PyVal) (l : List PyVal) (hx : x ∈ uniqueVals l) :
    x ∈ l ∧ x.notna = true := by
  unfold uniqueVals at hx
  have := mem_of_mem_dedupAux _ _ _ hx
  exact ⟨(List.mem_filter.mp this).1, (List.mem_filter.mp this).2⟩

/-- A non-null value equals itself under the pandas comparison. -/
theorem pyEq_self (v : PyVal) (h : v.notna = true) : pyEq v v = true := by
  cases v with
  | vNone => simp [PyVal.notna] at h
  | vNum q r => simp [pyEq]
  | vStr s => simp [pyEq]

/-- The group stored for a distinct code of a frame is non-empty. -/
theorem filter_code_ne_nil (df : List Row) (code : PyVal)
    (h : code ∈ uniqueVals (df.map apiCodeOf)) :
    df.filter (fun r => pyEq (apiCodeOf r) code) ≠ [] := by
  obtain ⟨hmem, hnn⟩ := uniqueVals_mem code _ h
  obtain ⟨r, hr, hrc⟩ := List.mem_map.mp hmem
  apply List.ne_nil_of_mem (a := r)
  rw [List.mem_filter]
  exact ⟨hr, by rw [hrc]; exact pyEq_self code hnn⟩

/-- A lookup after an inner-dict update returns the updated group or an
old binding. -/
theorem sheetGet_sheetSet :
    ∀ (m : List (String × List Row)) (sheet : String) (df : List Row) (sh : String)
      (rs : List Row), sheetGet (sheetSet m sheet df) sh = some rs →
      rs = df ∨ sheetGet m sh = some rs := by
  intro m
  induction m with
  | nil =>
    intro sheet df sh rs h
    unfold sheetSet sheetGet at h
    by_cases hsh : sheet = sh
    · rw [if_pos hsh] at h
      exact Or.inl (Option.some.inj h).symm
    · rw [if_neg hsh] at h
      simp [sheetGet] at h
  | cons sd rest ih =>
    intro sheet df sh rs h
    obtain ⟨s, d⟩ := sd
    unfold sheetSet at h
    by_cases hss : s = sheet
    · rw [if_pos hss] at h
      unfold sheetGet at h
      by_cases hsh : s = sh
      · rw [if_pos hsh] at h
        exact Or.inl (Option.some.inj h).symm
      · rw [if_neg hsh] at h
        exact Or.inr (by unfold sheetGet; rw [if_neg hsh]; exact h)
    · rw [if_neg hss] at h
      unfold sheetGet at h
      by_cases hsh : s = sh
      · rw [if_pos hsh] at h
        exact Or.inr (by unfold sheetGet; rw [if_pos hsh]; exact h)
      · rw [if_neg hsh] at h
        rcases ih sheet df sh rs h with h2 | h2
        · exact Or.inl h2
        · exact Or.inr (by unfold sheetGet; rw [if_neg hsh]; exact h2)

/-- A lookup after `api_data[code][sheet] = df` returns `df` or an old
binding. -/
theorem adGet_adSet :
    ∀ (ad : ApiData) (code : PyVal) (sheet : String) (df : List Row) (c : PyVal)
      (sh : String) (rs : List Row), adGet (adSet ad code sheet df) c sh = some rs →
      rs = df ∨ adGet ad c sh = some rs := by
  intro ad
  induction ad with
  | nil =>
    intro code sheet df c sh rs h
    unfold adSet adGet at h
    by_cases hk : valKeyEq code c = true
    · rw [if_pos hk] at h
      unfold sheetGet at h
      by_cases hsh : sheet = sh
      · rw [if_pos hsh] at h
        exact Or.inl (Option.some.inj h).symm
      · rw [if_neg hsh] at h
        simp [sheetGet] at h
    · rw [if_neg hk] at h
      simp [adGet] at h
  | cons am rest ih =>
    intro code sheet df c sh rs h
    obtain ⟨a, m⟩ := am
    unfold adSet at h
    by_cases hak : valKeyEq a code = true
    · rw [if_pos hak] at h
      unfold adGet at h
      by_cases hac : valKeyEq a c = true
      · rw [if_pos hac] at h
        rcases sheetGet_sheetSet m sheet df sh rs h with h2 | h2
        · exact Or.inl h2
        · exact Or.inr (by unfold adGet; rw [if_pos hac]; exact h2)
      · rw [if_neg hac] at h
        exact Or.inr (by unfold adGet; rw [if_neg hac]; exact h)
    · rw [if_neg hak] at h
      unfold adGet at h
      by_cases hac : valKeyEq a c = true
      · rw [if_pos hac] at h
        exact Or.inr (by unfold adGet; rw [if_pos hac]; exact h)
      · rw [if_neg hac] at h
        rcases ih code sheet df c sh rs h with h2 | h2
        · exact Or.inl h2
        · exact Or.inr (by unfold adGet; rw [if_neg hac]; exact h2)

/-- The folding step of `populate_api_data` preserves the non-emptiness
of every stored group, given that each inserted group is non-empty. -/
theorem popFold_ok (df : List Row) (sheet : String) :
    ∀ (codes : List PyVal) (ad : ApiData),
      (∀ code ∈ codes, df.filter (fun r => pyEq (apiCodeOf r) code) ≠ []) →
      (∀ c sh rs, adGet ad c sh = some rs → rs ≠ []) →
      ∀ c sh rs,
        adGet (codes.foldl
          (fun acc code => adSet acc code sheet
            (df.filter (fun r => pyEq (apiCodeOf r) code))) ad) c sh = some rs →
        rs ≠ [] := by
  intro codes
  induction codes with
  | nil => intro ad _ hok; exact hok
  | cons code rest ih =>
    intro ad hall hok
    rw [List.foldl_cons]
    apply ih
    · exact fun x hx => hall x (List.mem_cons_of_mem _ hx)
    · intro c sh rs hget
      rcases adGet_adSet ad code sheet _ c sh rs hget with h2 | h2
      · exact h2 ▸ hall code (List.mem_cons_self _ _)
      · exact hok c sh rs h2

/-- `populate_api_data` preserves the non-emptiness of every stored
group. -/
theorem populate_api_data_ok (ad : ApiData) (df : List Row) (sheet : String)
    (hok : ∀ c sh rs, adGet ad c sh = some rs → rs ≠ []) :
    ∀ c sh rs, adGet (populate_api_data ad df sheet) c sh = some rs → rs ≠ [] := by
  unfold populate_api_data
  exact popFold_ok df sheet _ ad (fun code hc => filter_code_ne_nil df code hc) hok

/-- Claim C9: the hierarchy index built by the five `populate_api_data`
passes never contains an empty row-set — a present (code, category) entry
always holds at least one row, so "present but empty" never occurs and
the renderer's empty-row-set branches coincide with absence. -/
theorem claim_C9 (apiListDf outputDf ipDf wsDf paramDf : List Row) (code : PyVal)
    (sheet : String) (rs : List Row)
    (hmem : adGet (buildApiData apiListDf outputDf ipDf wsDf paramDf) code sheet = some rs) :
    rs ≠ [] := by
  unfold buildApiData at hmem
  refine populate_api_data_ok _ _ _
    (populate_api_data_ok _ _ _
      (populate_api_data_ok _ _ _
        (populate_api_data_ok _ _ _
          (populate_api_data_ok _ _ _ (fun c sh rs2 h => by simp [adGet] at h)))))
    code sheet rs hmem

/-- Witness for C9 at a concrete index: the one stored `API清單` group is
non-empty. -/
theorem claim_C9_witness :
    ([[("API代碼", PyVal.vStr "X"), ("API簡述", PyVal.vStr "d")]] : List Row) ≠ [] := by
  exact claim_C9 [[("API代碼", PyVal.vStr "X"), ("API簡述", PyVal.vStr "d")]] [] [] [] []
    (PyVal.vStr "X") "API清單" _ (by decide)

/-! ### Helper lemmas for the ordering model -/

/-- Totality of the lexicographic character comparison. -/
theorem lexLeChars_total :
    ∀ (l1 l2 : List Char), lexLeChars l1 l2 = true ∨ lexLeChars l2 l1 = true := by
  intro l1
  induction l1 with
  | nil => intro l2; exact Or.inl rfl
  | cons a as ih =>
    intro l2
    cases l2 with
    | nil => exact Or.inr rfl
    | cons b bs =>
      by_cases hab : a = b
      · subst hab
        rcases ih bs with h | h
        · exact Or.inl (by simp [lexLeChars, h])
        · exact Or.inr (by simp [lexLeChars, h])
      · rcases lt_or_gt_of_ne hab with h | h
        · exact Or.inl (by simp [lexLeChars, hab, h])
        · exact Or.inr (by simp [lexLeChars, Ne.symm hab, h])

/-- Transitivity of the lexicographic character comparison. -/
theorem lexLeChars_trans :
    ∀ (l1 l2 l3 : List Char), lexLeChars l1 l2 = true → lexLeChars l2 l3 = true →
      lexLeChars l1 l3 = true := by
  intro l1
  induction l1 with
  | nil => intros; rfl
  | cons a as ih =>
    intro l2 l3 h12 h23
    cases l2 with
    | nil => simp [lexLeChars] at h12
    | cons b bs =>
      cases l3 with
      | nil => simp [lexLeChars] at h23
      | cons c cs =>
        unfold lexLeChars at h12 h23 ⊢
        by_cases hab : a = b
        · subst hab
          rw [if_pos rfl] at h12
          by_cases hbc : a = c
          · subst hbc
            rw [if_pos rfl] at h23 ⊢
            exact ih bs cs h12 h23
          · rw [if_neg hbc] at h23 ⊢
            exact h23
        · rw [if_neg hab] at h12
          have hab' : a < b := of_decide_eq_true h12
          by_cases hbc : b = c
          · subst hbc
            rw [if_neg hab]
            exact decide_eq_true hab'
          · rw [if_neg hbc] at h23
            have hbc' : b < c := of_decide_eq_true h23
            have hac : a < c := lt_trans hab' hbc'
            rw [if_neg (ne_of_lt hac)]
            exact decide_eq_true hac

/-- Totality of the cell-value comparison. -/
theorem leVal_total : ∀ (a b : PyVal), leVal a b = true ∨ leVal b a = true := by
  intro a b
  cases a <;> cases b <;> simp [leVal]
  · exact le_total _ _
  · exact lexLeChars_total _ _

/-- Transitivity of the cell-value comparison. -/
theorem leVal_trans :
    ∀ (a b c : PyVal), leVal a b = true → leVal b c = true → leVal a c = true := by
  intro a b c hab hbc
  cases a <;> cases b <;> cases c <;> simp [leVal, strLe] at hab hbc ⊢
  · exact le_trans hab hbc
  · exact lexLeChars_trans _ _ _ hab hbc

/-- Membership after an ordered insertion. -/
theorem mem_insertOrdered {α : Type} (le : α → α → Bool) (x : α) :
    ∀ (l : List α) (y : α), y ∈ insertOrdered le x l → y = x ∨ y ∈ l := by
  intro l
  induction l with
  | nil =>
    intro y hy
    simp [insertOrdered] at hy
    exact Or.inl hy
  | cons a as ih =>
    intro y hy
    unfold insertOrdered at hy
    by_cases h : le x a = true
    · rw [if_pos h] at hy
      rcases List.mem_cons.mp hy with h2 | h2
      · exact Or.inl h2
      · exact Or.inr h2
    · rw [if_neg h] at hy
      rcases List.mem_cons.mp hy with h2 | h2
      · exact Or.inr (h2 ▸ List.mem_cons_self _ _)
      · rcases ih y h2 with h3 | h3
        · exact Or.inl h3
        · exact Or.inr (List.mem_cons_of_mem _ h3)

/-- Ordered insertion preserves sortedness. -/
theorem pairwise_insertOrdered {α : Type} (le : α → α → Bool)
    (htot : ∀ a b, le a b = true ∨ le b a = true)
    (htrans : ∀ a b c, le a b = true → le b c = true → le a c = true) (x : α) :
    ∀ (l : List α), l.Pairwise (fun a b => le a b = true) →
      (insertOrdered le x l).Pairwise (fun a b => le a b = true) := by
  intro l
  induction l with
  | nil => intro _; simp [insertOrdered]
  | cons a as ih =>
    intro hp
    rcases List.pairwise_cons.mp hp with ⟨ha, has⟩
    unfold insertOrdered
    by_cases h : le x a = true
    · rw [if_pos h]
      refine List.pairwise_cons.mpr ⟨?_, hp⟩
      intro b hb
      rcases List.mem_cons.mp hb with h2 | h2
      · exact h2 ▸ h
      · exact htrans x a b h (ha b h2)
    · rw [if_neg h]
      refine List.pairwise_cons.mpr ⟨?_, ih has⟩
      intro b hb
      rcases mem_insertOrdered le x as b hb with h2 | h2
      · rw [h2]
        rcases htot x a with h3 | h3
        · exact absurd h3 h
        · exact h3
      · exact ha b h2

/-- The insertion sort produces a sorted list. -/
theorem pairwise_insertionSortBy {α : Type} (le : α → α → Bool)
    (htot : ∀ a b, le a b = true ∨ le b a = true)
    (htrans : ∀ a b c, le a b = true → le b c = true → le a c = true) :
    ∀ (l : List α), (insertionSortBy le l).Pairwise (fun a b => le a b = true) := by
  intro l
  induction l with
  | nil => simp [insertionSortBy]
  | cons a as ih => exact pairwise_insertOrdered le htot htrans a _ ih

/-- Ordered insertion is a permutation of consing. -/
theorem perm_insertOrdered {α : Type} (le : α → α → Bool) (x : α) :
    ∀ (l : List α), (insertOrdered le x l).Perm (x :: l) := by
  intro l
  induction l with
  | nil => exact List.Perm.refl _
  | cons a as ih =>
    unfold insertOrdered
    by_cases h : le x a = true
    · rw [if_pos h]
    · rw [if_neg h]
      exact (ih.cons a).trans (List.Perm.swap x a as)

/-- The insertion sort permutes its input. -/
theorem perm_insertionSortBy {α : Type} (le : α → α → Bool) :
    ∀ (l : List α), (insertionSortBy le l).Perm l := by
  intro l
  induction l with
  | nil => exact List.Perm.refl _
  | cons a as ih => exact (perm_insertOrdered le a _).trans (ih.cons a)

/-- An element surviving pair deduplication is key-distinct from every
previously seen pair. -/
theorem dedupPairsAux_not_seen :
    ∀ (l seen : List (PyVal × PyVal)) (x : PyVal × PyVal), x ∈ dedupPairsAux seen l →
      ∀ s ∈ seen, ¬(valKeyEq s.1 x.1 = true ∧ valKeyEq s.2 x.2 = true) := by
  intro l
  induction l with
  | nil => intro seen x hx; simp [dedupPairsAux] at hx
  | cons p rest ih =>
    intro seen x hx s hs
    unfold dedupPairsAux at hx
    by_cases hseen : seen.any (fun q => valKeyEq q.1 p.1 && valKeyEq q.2 p.2) = true
    · rw [if_pos hseen] at hx
      exact ih seen x hx s hs
    · rw [if_neg hseen] at hx
      rcases List.mem_cons.mp hx with h2 | h2
      · subst h2
        rintro ⟨hk1, hk2⟩
        exact hseen (List.any_eq_true.mpr ⟨s, hs, by simp [hk1, hk2]⟩)
      · exact ih (p :: seen) x h2 s (List.mem_cons_of_mem _ hs)

/-- Pair deduplication yields pairwise key-distinct pairs. -/
theorem pairwise_dedupPairsAux :
    ∀ (l seen : List (PyVal × PyVal)),
      (dedupPairsAux seen l).Pairwise
        (fun p q => ¬(valKeyEq p.1 q.1 = true ∧ valKeyEq p.2 q.2 = true)) := by
  intro l
  induction l with
  | nil => intro seen; simp [dedupPairsAux]
  | cons p rest ih =>
    intro seen
    unfold dedupPairsAux
    by_cases hseen : seen.any (fun q => valKeyEq q.1 p.1 && valKeyEq q.2 p.2) = true
    · rw [if_pos hseen]
      exact ih seen
    · rw [if_neg hseen]
      refine List.pairwise_cons.mpr ⟨?_, ih (p :: seen)⟩
      intro q hq
      exact dedupPairsAux_not_seen rest (p :: seen) q hq p (List.mem_cons_self _ _)

/-- Symmetry of key equality. -/
theorem valKeyEq_symm (a b : PyVal) (h : valKeyEq a b = true) : valKeyEq b a = true := by
  cases a <;> cases b <;> simp [valKeyEq] at h ⊢ <;> exact h.symm

/-- Two values pandas-equal to the same value are key-equal. -/
theorem pyEq_both_keyEq (d1 d2 b : PyVal) (h1 : pyEq d1 b = true) (h2 : pyEq d2 b = true) :
    valKeyEq d1 d2 = true := by
  cases d1 <;> cases d2 <;> cases b <;> simp [pyEq, valKeyEq] at h1 h2 ⊢ <;>
    exact h1.trans h2.symm

/-- Claim C5: the batch list is emitted in ascending order of batch
description with exactly one entry per distinct (batch-code,
batch-description) pair, and — provided the ordering result set is
sorted within equal descriptions by sequence, which the fetch query's
`ORDER BY` guarantees — the rows of every batch group are emitted in
ascending order of their sequence value. -/
theorem claim_C5 (hier : List Row)
    (hseq : hier.Pairwise (fun r1 r2 =>
      valKeyEq (batchKeyOf r1).2 (batchKeyOf r2).2 = true →
        leVal (seqOf r1) (seqOf r2) = true)) :
    (batch_list hier).Pairwise (fun p q => leVal p.2 q.2 = true) ∧
    (∀ bc bd : PyVal,
      ((groupRows hier bc bd).map seqOf).Pairwise (fun a b => leVal a b = true)) ∧
    (batch_list hier).Pairwise
      (fun p q => ¬(valKeyEq p.1 q.1 = true ∧ valKeyEq p.2 q.2 = true)) := by
  refine ⟨?_, ?_, ?_⟩
  · unfold batch_list
    exact pairwise_insertionSortBy batchPairLe
      (fun a b => leVal_total a.2 b.2) (fun a b c => leVal_trans a.2 b.2 c.2) _
  · intro bc bd
    rw [List.pairwise_map]
    have hg : (groupRows hier bc bd).Pairwise (fun r1 r2 =>
        valKeyEq (batchKeyOf r1).2 (batchKeyOf r2).2 = true →
          leVal (seqOf r1) (seqOf r2) = true) := by
      unfold groupRows
      exact hseq.filter _
    have hmem : ∀ r ∈ groupRows hier bc bd,
        pyEq (rowGet r "批次說明" PyVal.vNone) bd = true := by
      intro r hr
      unfold groupRows at hr
      have hpred := (List.mem_filter.mp hr).2
      simp only [Bool.and_eq_true] at hpred
      exact hpred.2
    refine hg.imp_of_mem ?_
    intro r1 r2 hr1 hr2 himp
    exact himp (pyEq_both_keyEq _ _ bd (hmem r1 hr1) (hmem r2 hr2))
  · unfold batch_list
    have hperm := perm_insertionSortBy batchPairLe (dedupPairs (hier.map batchKeyOf))
    have hpw := pairwise_dedupPairsAux (hier.map batchKeyOf) []
    exact (hperm.pairwise_iff
      (fun h hc => h ⟨valKeyEq_symm _ _ hc.1, valKeyEq_symm _ _ hc.2⟩)).mpr hpw

/-- Witness for C5 at a concrete ordering result set with two batches. -/
theorem claim_C5_witness :
    (batch_list
      [[("批次代碼", PyVal.vStr "B2"), ("批次說明", PyVal.vStr "zz"),
        ("API順序", PyVal.vNum (natToRat 1) "1.0")],
       [("批次代碼", PyVal.vStr "B1"), ("批次說明", PyVal.vStr "aa"),
        ("API順序", PyVal.vNum (natToRat 1) "1.0")]]).Pairwise
      (fun p q => leVal p.2 q.2 = true) ∧
    ((groupRows
      [[("批次代碼", PyVal.vStr "B2"), ("批次說明", PyVal.vStr "zz"),
        ("API順序", PyVal.vNum (natToRat 1) "1.0")],
       [("批次代碼", PyVal.vStr "B1"), ("批次說明", PyVal.vStr "aa"),
        ("API順序", PyVal.vNum (natToRat 1) "1.0")]]
      (PyVal.vStr "B1") (PyVal.vStr "aa")).map seqOf).Pairwise
      (fun a b => leVal a b = true) := by
  have h := claim_C5
    [[("批次代碼", PyVal.vStr "B2"), ("批次說明", PyVal.vStr "zz"),
      ("API順序", PyVal.vNum (natToRat 1) "1.0")],
     [("批次代碼", PyVal.vStr "B1"), ("批次說明", PyVal.vStr "aa"),
      ("API順序", PyVal.vNum (natToRat 1) "1.0")]]
    (by
      refine List.Pairwise.cons ?_ (List.Pairwise.cons ?_ List.Pairwise.nil)
      · intro b hb
        simp at hb
        subst hb
        intro hk
        exact absurd hk (by decide)
      · intro b hb
        simp at hb)
  exact ⟨h.1, h.2.1 (PyVal.vStr "B1") (PyVal.vStr "aa")⟩
